import Mathlib

/-!
Shallow embedding of the Travel Assistant (GCP/BigQuery) repository:
the inquiry router, the flight-status client, the analytics client and
the web chat handler, with external collaborators (LLM, REST API,
warehouse) modelled as explicit oracle parameters.
-/

set_option maxHeartbeats 1000000

namespace TravelAssistant

/-- Exceptions raised by the modelled Python code. -/
inductive PyExn where
  | typeError
  | keyError (k : String)
  | exn (msg : String)
deriving Repr, DecidableEq

/-- `str(e)` for a modelled exception, used where the code embeds it in a message. -/
def pyExnMsg : PyExn → String
  | .typeError => "TypeError"
  | .keyError k => "KeyError: " ++ k
  | .exn m => m

/-! ### Character classes (ASCII model of the `re` classes used by the source) -/

/-- ASCII letter, both cases: what `[A-Z]` with `re.IGNORECASE` accepts. -/
def isAsciiAlpha (c : Char) : Bool :=
  ('A' ≤ c && c ≤ 'Z') || ('a' ≤ c && c ≤ 'z')

/-- ASCII uppercase letter: what `[A-Z]` without flags accepts. -/
def isAsciiUpper (c : Char) : Bool :=
  'A' ≤ c && c ≤ 'Z'

/-- ASCII digit, the `\d` class. -/
def isAsciiDigit (c : Char) : Bool :=
  '0' ≤ c && c ≤ '9'

/-- ASCII whitespace, the `\s` class. -/
def isPyWs (c : Char) : Bool :=
  c == ' ' || c == '\t' || c == '\n' || c == '\r' || c == '\x0b' || c == '\x0c'

/-- Python `str.upper()` (ASCII model), structurally recursive so that it
reduces definitionally. -/
def pyUpper (s : String) : String :=
  String.mk (s.data.map Char.toUpper)

/-- Python `str.lower()` (ASCII model). -/
def pyLower (s : String) : String :=
  String.mk (s.data.map Char.toLower)

/-- Python `str.strip()`: remove whitespace from both ends. -/
def pyStrip (s : String) : String :=
  String.mk (((s.data.dropWhile isPyWs).reverse.dropWhile isPyWs).reverse)

/-- Word character for `\b` boundaries: letter, digit or underscore. -/
def isWordChar (c : Char) : Bool :=
  isAsciiAlpha c || isAsciiDigit c || c == '_'

/-- A `\b` boundary holds before a word character when the previous character
is absent (string edge) or not a word character. -/
def boundaryOk : Option Char → Bool
  | none => true
  | some c => !isWordChar c

/-! ### The flight-number regex `\b([A-Z]{2}\d{1,4})\b`

`matchFNAt letterP prev cs` attempts the match at the start of `cs`, where
`prev` is the character immediately before `cs` (for the left boundary) and
`letterP` is the letter class (`isAsciiAlpha` for the router's IGNORECASE
search, `isAsciiUpper` for the status agent's search on the uppercased query).
Greedy `\d{1,4}` followed by `\b` succeeds exactly when the maximal digit run
has length 1..4 and the character after it is not a word character. -/
def matchFNAt (letterP : Char → Bool) (prev : Option Char) : List Char → Option (List Char)
  | a :: b :: rest =>
    if boundaryOk prev && letterP a && letterP b then
      let ds := rest.takeWhile isAsciiDigit
      if 1 ≤ ds.length && ds.length ≤ 4 && boundaryOk ((rest.drop ds.length).head?) then
        some (a :: b :: ds)
      else none
    else none
  | _ => none

/-- Leftmost search for the flight-number pattern, tracking the previous
character for the left word boundary. -/
def searchFNAux (letterP : Char → Bool) : Option Char → List Char → Option (List Char)
  | _, [] => none
  | prev, c :: rest =>
    match matchFNAt letterP prev (c :: rest) with
    | some m => some m
    | none => searchFNAux letterP (some c) rest

/-- `re.search(r'\b([A-Z]{2}\d{1,4})\b', query, re.IGNORECASE)` viewed as a
Boolean: the router's fast path test (inquiry_router_agent.py line 33). -/
def hasFlightNumber (query : String) : Bool :=
  (searchFNAux isAsciiAlpha none query.data).isSome

/-- `FlightStatusAgent._extract_flight_number`: uppercase the query, then
`re.search(r'\b([A-Z]{2}\d{1,4})\b', ...)` and return the matched group. -/
def extractFlightNumber (query : String) : Option String :=
  match searchFNAux isAsciiUpper none (pyUpper query).data with
  | some cs => some (String.mk cs)
  | none => none

/-! ### The route regex `from\s+([A-Z]{3})\s+to\s+([A-Z]{3})` (IGNORECASE) -/

/-- Match a literal word case-insensitively (the literal is given lowercase). -/
def matchLitCi : List Char → List Char → Option (List Char)
  | [], rest => some rest
  | _ :: _, [] => none
  | l :: ls, c :: rest => if c.toLower == l then matchLitCi ls rest else none

/-- `\s+`: require at least one whitespace character, consume the maximal run.
(The following regex atom is never a whitespace character, so the greedy
match never backtracks.) -/
def skipWs1 : List Char → Option (List Char)
  | [] => none
  | c :: rest => if isPyWs c then some (rest.dropWhile isPyWs) else none

/-- `([A-Z]{3})` under IGNORECASE: exactly three ASCII letters, returned as matched. -/
def take3Letters : List Char → Option (String × List Char)
  | a :: b :: c :: rest =>
    if isAsciiAlpha a && isAsciiAlpha b && isAsciiAlpha c then
      some (String.mk [a, b, c], rest)
    else none
  | _ => none

/-- Attempt the whole route pattern at the start of the character list. -/
def matchRouteAt (cs : List Char) : Option (String × String) := do
  let r0 ← matchLitCi ['f', 'r', 'o', 'm'] cs
  let r1 ← skipWs1 r0
  let (g1, r2) ← take3Letters r1
  let r3 ← skipWs1 r2
  let r4 ← matchLitCi ['t', 'o'] r3
  let r5 ← skipWs1 r4
  let (g2, _) ← take3Letters r5
  pure (g1, g2)

/-- Leftmost search for the route pattern. -/
def searchRouteAux : List Char → Option (String × String)
  | [] => none
  | c :: rest =>
    match matchRouteAt (c :: rest) with
    | some r => some r
    | none => searchRouteAux rest

/-- `ROUTE_REGEX.search(user_query)` of main.py line 41, returning the two
captured airport-code groups when a match exists. -/
def searchRoute (s : String) : Option (String × String) :=
  searchRouteAux s.data

/-! ### Substring and prefix utilities (Python `in` on strings, report checks) -/

/-- `needle` is a prefix of `hay` (character lists). -/
def subAt : List Char → List Char → Bool
  | [], _ => true
  | _ :: _, [] => false
  | a :: as, b :: bs => a == b && subAt as bs

/-- `needle` occurs contiguously inside `hay` (character lists). -/
def subList (needle : List Char) : List Char → Bool
  | [] => needle.isEmpty
  | c :: rest => subAt needle (c :: rest) || subList needle rest

/-- Python `needle in hay` for strings (substring containment). -/
def strContains (hay needle : String) : Bool :=
  subList needle.data hay.data

/-- `s` starts with `pre`. -/
def strStartsWith (s pre : String) : Bool :=
  subAt pre.data s.data

/-! ### The inquiry router (inquiry_router_agent.py) -/

/-- The classification prompt of inquiry_router_agent.py line 38. -/
def classifyPrompt (query : String) : String :=
  "Classify query: \x27" ++ query ++
    "\x27. Options: flight_status, flight_analytics. Respond ONLY with the category."

/-- `InquiryRouterAgent.handle`, with the Gemini call modelled as an oracle
from the prompt to either a response text or a raised exception.  The second
component records whether the classification call was issued.  There is no
exception handler in the source, so an oracle failure propagates. -/
def InquiryRouterAgent.handle (llm : String → Except PyExn String) (query : String) :
    Except PyExn String × Bool :=
  if hasFlightNumber query then (Except.ok "flight_status", false)
  else
    match llm (classifyPrompt query) with
    | Except.ok t => (Except.ok (pyLower (pyStrip t)), true)
    | Except.error e => (Except.error e, true)

/-! ### The flight status agent (flight_status_agent.py) -/

/-- Python string truthiness followed by `or default` (`dep.get('city') or dep_airport`):
`none` and the empty string are falsy. -/
def pyOrStr (v : Option String) (dflt : String) : String :=
  match v with
  | none => dflt
  | some s => if s = "" then dflt else s

/-- Python `str.capitalize()`: first character uppercased, the rest lowercased. -/
def pyCapitalize (s : String) : String :=
  match s.data with
  | [] => ""
  | c :: cs => String.mk (c.toUpper :: cs.map Char.toLower)

/-- The `departure` sub-object of an AviationStack flight record; an absent
sub-object behaves like one with every field absent, since only `.get` is used. -/
structure DepInfo where
  airport : Option String := none
  city : Option String := none
  iata : Option String := none
  scheduled : Option String := none
  actual : Option String := none
  gate : Option String := none
  terminal : Option String := none
  delay : Option Int := none
deriving Repr, DecidableEq

/-- The `arrival` sub-object of an AviationStack flight record. -/
structure ArrInfo where
  airport : Option String := none
  city : Option String := none
  iata : Option String := none
  scheduled : Option String := none
  estimated : Option String := none
deriving Repr, DecidableEq

/-- One AviationStack flight record, restricted to the fields the agent reads.
`airlineName` stands for `flight.get('airline', {}).get('name', ...)`. -/
structure FlightRecord where
  airlineName : Option String := none
  flight_status : Option String := none
  departure : DepInfo := {}
  arrival : ArrInfo := {}
deriving Repr, DecidableEq

/-- The caller's user context read by the personalization step. -/
structure UserContext where
  preferredAirline : Option String := none
  preferredAirport : Option String := none
deriving Repr, DecidableEq

/-- `FlightStatusAgent._format_time`, with the `datetime.fromisoformat` +
`strftime` of the try block abstracted as the oracle `parseT` (`none` models a
raised parse exception, in which case the original string is returned). -/
def formatTime (parseT : String → Option String) (timestr : Option String) : String :=
  match timestr with
  | none => "N/A"
  | some s =>
    if s = "" then "N/A"
    else
      match parseT s with
      | some formatted => formatted
      | none => s

/-- The conditional expression of flight_status_agent.py line 163:
`f"Departure Delay: {delay} min" if delay else "On time"` under Python
truthiness of the delay value. -/
def delayLine (delay : Option Int) : String :=
  match delay with
  | none => "On time"
  | some n => if n = 0 then "On time" else "Departure Delay: " ++ toString n ++ " min"

/-- The personalization string accumulated by `+=` in
`_format_flight_status` (lines 164-171): a line per matching preference,
where Python truthiness of the preference (`user_airline and ...`) is
non-`None` and non-empty, and the match is a lowercased substring test. -/
def personalization (ctx : UserContext) (airline depCity arrCity : String) : String :=
  (match ctx.preferredAirline with
   | some ua =>
     if ua != "" && strContains (pyLower airline) (pyLower ua) then
       "\n[Personalized] This is your preferred airline!"
     else ""
   | none => "") ++
  (match ctx.preferredAirport with
   | some up =>
     if up != "" && (strContains (pyLower depCity) (pyLower up)
         || strContains (pyLower arrCity) (pyLower up)) then
       "\n[Personalized] This route includes your preferred airport!"
     else ""
   | none => "")

/-- The `lines` list built by `FlightStatusAgent._format_flight_status`,
including the conditional personalization entry. -/
def formatFlightLines (parseT : String → Option String) (ctx : UserContext)
    (flightNumber : String) (f : FlightRecord) : List String :=
  let airline := f.airlineName.getD "Unknown Airline"
  let status := pyCapitalize (f.flight_status.getD "Unknown")
  let dep := f.departure
  let arr := f.arrival
  let depAirport := dep.airport.getD "Unknown Departure Airport"
  let depCity := pyOrStr dep.city depAirport
  let depCode := dep.iata.getD "N/A"
  let arrAirport := arr.airport.getD "Unknown Arrival Airport"
  let arrCity := pyOrStr arr.city arrAirport
  let arrCode := arr.iata.getD "N/A"
  let schedDep := formatTime parseT dep.scheduled
  let actualDep := formatTime parseT dep.actual
  let schedArr := formatTime parseT arr.scheduled
  let estArr := formatTime parseT arr.estimated
  let gate := pyOrStr dep.gate "N/A"
  let terminal := pyOrStr dep.terminal "N/A"
  let delayStr := delayLine dep.delay
  let pers := personalization ctx airline depCity arrCity
  let lines := [
    "Flight Status Report for " ++ flightNumber ++ " (" ++ airline ++ ")",
    "Status: " ++ status,
    "Route: " ++ depCity ++ " (" ++ depCode ++ ") \u00E2\u2020\u2019 " ++ arrCity
      ++ " (" ++ arrCode ++ ")",
    "Scheduled Departure: " ++ schedDep ++ " | Actual Departure: " ++ actualDep,
    "Scheduled Arrival: " ++ schedArr ++ " | Estimated Arrival: " ++ estArr,
    "Terminal: " ++ terminal ++ " | Gate: " ++ gate,
    delayStr]
  if pers = "" then lines else lines ++ [pers]

/-- Python `"\n".join(lines)`. -/
def pyJoin (sep : String) : List String → String
  | [] => ""
  | [x] => x
  | x :: y :: rest => x ++ sep ++ pyJoin sep (y :: rest)

/-- `FlightStatusAgent._format_flight_status`: the joined multi-line report. -/
def formatFlightStatus (parseT : String → Option String) (ctx : UserContext)
    (flightNumber : String) (f : FlightRecord) : String :=
  pyJoin "\n" (formatFlightLines parseT ctx flightNumber f)

/-- Outcome of `_fetch_flight_data`'s network interaction, as seen by the
`try` block of `handle`: a transport timeout, a connection error, any other
raised exception (HTTP error status, JSON decode failure, ...), or a JSON
body whose `data` list is as given (absent or null `data` behaves like `[]`,
since both are falsy). -/
inductive FetchOutcome where
  | timeout
  | connError
  | raiseOther (msg : String)
  | ok (data : List FlightRecord)
deriving Repr, DecidableEq

/-- The structured response dict of the status agent. -/
structure StatusResult where
  code : String
  message : String
  data : Option String := none
  details : Option String := none
  suggestion : Option String := none
deriving Repr, DecidableEq

/-- `FlightStatusAgent._error_response`. -/
def errorResponse (code message details suggestion : String) : StatusResult :=
  { code := code, message := message, details := some details, suggestion := some suggestion }

/-- The summarization prompt of flight_status_agent.py line 57. -/
def statusSummaryPrompt (rawStatus : String) : String :=
  "Summarize the following flight status for a traveler in 2-3 sentences, focusing on what matters most:\n"
    ++ rawStatus

/-- `FlightStatusAgent.handle`: extract a flight number, fetch, and map every
failure to a structured error code.  The network interaction and the Gemini
summarizer are oracles (`fetch`, `summ`); every branch, including oracle
exceptions, yields a structured `StatusResult` — the function is total. -/
def FlightStatusAgent.handle (parseT : String → Option String)
    (summ : String → Except PyExn String) (ctx : UserContext)
    (fetch : FetchOutcome) (query : String) : StatusResult :=
  match extractFlightNumber query with
  | none =>
    errorResponse "INVALID_INPUT" "Please provide a valid flight number (e.g., AA123)."
      "No valid flight number found in the query."
      "Try entering a flight number in the format AA123."
  | some flightNumber =>
    match fetch with
    | .timeout =>
      errorResponse "TIMEOUT" "The flight status service is currently slow."
        "Request to AviationStack timed out." "Please try again in a moment."
    | .connError =>
      errorResponse "NETWORK_ERROR" "Unable to connect to the flight status service."
        "Network connection error." "Check your internet connection and try again."
    | .raiseOther msg =>
      errorResponse "SYSTEM_ERROR" "An unexpected error occurred." msg
        "Please try again later or contact support if the issue persists."
    | .ok [] =>
      errorResponse "NOT_FOUND" ("No such flight exists for: " ++ flightNumber ++ ".")
        "Flight number not found in AviationStack data."
        "Double-check the flight number or try a different airline/date."
    | .ok (record :: _) =>
      let raw := formatFlightStatus parseT ctx flightNumber record
      match summ (statusSummaryPrompt raw) with
      | .error e =>
        errorResponse "SYSTEM_ERROR" "An unexpected error occurred." (pyExnMsg e)
          "Please try again later or contact support if the issue persists."
      | .ok t =>
        { code := "SUCCESS", message := "Flight status retrieved successfully.",
          data := some (pyStrip t) }

/-! ### A small JSON value model for the analytics path -/

/-- JSON values, as produced by `json.loads` on the Gemini response. -/
inductive Json where
  | null
  | bool (b : Bool)
  | num (n : Int)
  | str (s : String)
  | arr (elems : List Json)
  | obj (entries : List (String × Json))

/-- Python `==` between a JSON value and a string (used by `in` on lists):
only equal strings compare equal. -/
def jsonEqStr : Json → String → Bool
  | .str s, k => s == k
  | _, _ => false

/-- Python `key in value`: key lookup on dicts, element equality on lists,
substring on strings; `TypeError` on anything else. -/
def pyIn (k : String) : Json → Except PyExn Bool
  | .obj kvs => .ok (kvs.any (fun kv => kv.1 == k))
  | .arr es => .ok (es.any (fun e => jsonEqStr e k))
  | .str s => .ok (strContains s k)
  | _ => .error .typeError

/-- Python `value[k]` with a string key: dict lookup (`KeyError` when absent),
`TypeError` on any non-dict. -/
def pySubscript (j : Json) (k : String) : Except PyExn Json :=
  match j with
  | .obj kvs =>
    match kvs.find? (fun kv => kv.1 == k) with
    | some kv => .ok kv.2
    | none => .error (.keyError k)
  | _ => .error .typeError

/-! ### The analytics agent (flight_analytics_agent.py) -/

/-- The four keys required of the Gemini response
(flight_analytics_agent.py line 175). -/
def requiredKeys : List String := ["sql", "parameters", "query_type", "extracted_values"]

/-- `all(key in result for key in required_keys)`: sequential, short-circuit,
propagating a raised `TypeError`. -/
def allKeysIn : List String → Json → Except PyExn Bool
  | [], _ => .ok true
  | k :: ks, r =>
    match pyIn k r with
    | .error e => .error e
    | .ok false => .ok false
    | .ok true => allKeysIn ks r

/-- The error dict returned by the `except` branch of
`_validate_and_structure_sql`, with `emsg` standing for `str(e)`. -/
def validationErrorDict (emsg : String) : Json :=
  .obj [("error", .str ("Failed to validate query: " ++ emsg)),
        ("sql", .null),
        ("parameters", .arr []),
        ("query_type", .str "error"),
        ("extracted_values", .obj [])]

/-- Outcome of the Gemini SQL-generation call as seen by
`_validate_and_structure_sql`: the call raised, the response text failed
`json.loads`, or it parsed to a JSON value. -/
inductive AnalyticsLlm where
  | raise (e : PyExn)
  | badJson
  | json (j : Json)

/-- `str(e)` of a `json.JSONDecodeError` (representative text). -/
def jsonDecodeMsg : String := "Expecting value: line 1 column 1 (char 0)"

/-- `FlightAnalyticsAgent._validate_and_structure_sql`: parse the response,
check the four required keys, and fall back to the error dict on any
exception (LLM failure, parse failure, `ValueError` on missing keys, or a
`TypeError` raised by `in` on a non-container). -/
def validateAndStructureSql : AnalyticsLlm → Json
  | .raise e => validationErrorDict (pyExnMsg e)
  | .badJson => validationErrorDict jsonDecodeMsg
  | .json r =>
    match allKeysIn requiredKeys r with
    | .error e => validationErrorDict (pyExnMsg e)
    | .ok false => validationErrorDict "Invalid response structure from Gemini"
    | .ok true => r

/-- The analytics agent's conversational memory (all fields start as `None`). -/
structure AMemory where
  lastQueryType : Option Json := none
  lastOrigin : Option Json := none
  lastDestination : Option Json := none
  lastYear : Option Json := none
  lastLimit : Option Json := none

/-- One step of `_update_memory`: `if k in extracted_values: mem[k'] = extracted_values[k]`,
propagating any raised exception. -/
def memField (ev : Json) (k : String) (cur : Option Json) : Except PyExn (Option Json) :=
  match pyIn k ev with
  | .error e => .error e
  | .ok false => .ok cur
  | .ok true =>
    match pySubscript ev k with
    | .error e => .error e
    | .ok v => .ok (some v)

/-- `FlightAnalyticsAgent._update_memory` over the extracted values. -/
def updateMemory (m : AMemory) (ev : Json) : Except PyExn AMemory := do
  let o ← memField ev "origin" m.lastOrigin
  let d ← memField ev "destination" m.lastDestination
  let y ← memField ev "year" m.lastYear
  let l ← memField ev "limit" m.lastLimit
  pure { m with lastOrigin := o, lastDestination := d, lastYear := y, lastLimit := l }

/-- Outcome of the BigQuery job: either `query`/`result` raised, or it
produced the given rows (each row a list of column/value pairs as strings). -/
inductive BqOutcome where
  | raise (msg : String)
  | rows (rs : List (List (String × String)))

/-- `FlightAnalyticsAgent._format_results`: pipe-delimited table of the first
five rows. -/
def formatResults (data : List (List (String × String))) : String :=
  match data with
  | [] => "No results found"
  | firstRow :: _ =>
    let columns := firstRow.map (fun kv => kv.1)
    let header := pyJoin " | " columns ++ "\n" ++ String.mk (List.replicate 50 '-') ++ "\n"
    let body := (data.take 5).map
      (fun row => pyJoin " | " (columns.map (fun c =>
        match row.find? (fun kv => kv.1 == c) with
        | some kv => kv.2
        | none => "")) ++ "\n")
    let table := header ++ String.join body
    if data.length > 5 then
      table ++ "\nShowing 5 of " ++ toString data.length ++ " records"
    else table

/-- The structured response dict of the analytics agent.  The `message` and
`queryType` slots hold arbitrary JSON values because the source fills them
with `validation_result['error']` and `validation_result['query_type']`. -/
structure AnalyticsResult where
  code : String
  message : Json
  details : Option String := none
  suggestion : Option String := none
  data : Option String := none
  queryType : Option Json := none

/-- The `SYSTEM_ERROR` response of the analytics `except` branch. -/
def analyticsSystemError (emsg : String) : AnalyticsResult :=
  { code := "SYSTEM_ERROR", message := .str "Analytics error.",
    details := some emsg, suggestion := some "Please try again later." }

/-- What one call to `FlightAnalyticsAgent.handle` did: its returned dict (or
the exception that escaped), whether the warehouse query was attempted, and
the final memory state. -/
structure AnalyticsOutcome where
  result : Except PyExn AnalyticsResult
  bqCalled : Bool
  memory : AMemory

/-- `FlightAnalyticsAgent.handle`.  The Gemini SQL generation, the BigQuery
job and the Gemini summarizer are oracles (`llm`, `bq`, `summ` — the
summarizer receives the query-type value and the formatted table that the
source embeds in its prompt).  The `'error' in validation_result` test, the
`validation_result['extracted_values']` subscript and `_update_memory` run
before the `try` block, so exceptions raised there escape; exceptions inside
the `try` block map to `SYSTEM_ERROR`. -/
def FlightAnalyticsAgent.handle (llm : AnalyticsLlm) (bq : BqOutcome)
    (summ : Json → String → Except PyExn String) : AnalyticsOutcome :=
  let m0 : AMemory := {}
  let vr := validateAndStructureSql llm
  match pyIn "error" vr with
  | .error e => ⟨.error e, false, m0⟩
  | .ok true =>
    match pySubscript vr "error" with
    | .error e => ⟨.error e, false, m0⟩
    | .ok msg =>
      ⟨.ok { code := "VALIDATION_ERROR", message := msg,
             details := some "Failed to validate query structure",
             suggestion := some "Please rephrase your analytics question." },
       false, m0⟩
  | .ok false =>
    match pySubscript vr "extracted_values" with
    | .error e => ⟨.error e, false, m0⟩
    | .ok ev =>
      match updateMemory m0 ev with
      | .error e => ⟨.error e, false, m0⟩
      | .ok mem =>
        match pySubscript vr "sql" with
        | .error e => ⟨.ok (analyticsSystemError (pyExnMsg e)), false, mem⟩
        | .ok _sql =>
          match pySubscript vr "parameters" with
          | .error e => ⟨.ok (analyticsSystemError (pyExnMsg e)), false, mem⟩
          | .ok _params =>
            match bq with
            | .raise msg => ⟨.ok (analyticsSystemError msg), true, mem⟩
            | .rows rs =>
              if rs.length = 0 then
                ⟨.ok { code := "NOT_FOUND", message := .str "No matching records found.",
                       details := some "", suggestion := some "Try a different query." },
                 true, mem⟩
              else
                match pySubscript vr "query_type" with
                | .error e => ⟨.ok (analyticsSystemError (pyExnMsg e)), true, mem⟩
                | .ok qt =>
                  match summ qt (formatResults rs) with
                  | .error e => ⟨.ok (analyticsSystemError (pyExnMsg e)), true, mem⟩
                  | .ok s =>
                    ⟨.ok { code := "SUCCESS", message := .str "Analytics summary generated.",
                           data := some (pyStrip s), queryType := some qt },
                     true, mem⟩

/-! ### The web chat handler (main.py) -/

/-- The per-session memory dict used by `chat`. -/
structure WebMemory where
  origin : Option String := none
  dest : Option String := none
  lastIntent : Option String := none
deriving Repr, DecidableEq

/-- main.py lines 41-48: extract a route from the query and store it
uppercased, or carry the remembered route forward by appending it to the
query text.  Returns the outgoing query and the updated memory. -/
def chatPreprocess (query : String) (m : WebMemory) : String × WebMemory :=
  match searchRoute query with
  | some (g1, g2) => (query, { m with origin := some (pyUpper g1), dest := some (pyUpper g2) })
  | none =>
    match m.origin, m.dest with
    | some o, some d => (query ++ " from " ++ o ++ " to " ++ d, m)
    | _, _ => (query, m)

/-- main.py lines 51-52: record an analytics intent when the (possibly
extended) query mentions analytics. -/
def chatMemIntent (query : String) (m : WebMemory) : WebMemory :=
  if strContains (pyLower query) "analytics" || strContains (pyLower query) "show me" then
    { m with lastIntent := some "analytics" }
  else m

/-- The two dispatch targets of main.py lines 57-64. -/
inductive Branch where
  | status
  | analytics
deriving Repr, DecidableEq

/-- main.py line 57: the status branch runs exactly when the router's agent
tag equals `"flight_status"`; every other tag falls to the analytics branch. -/
def chatDispatch (agent : String) : Branch :=
  if agent = "flight_status" then .status else .analytics

/-- The routing portion of one `chat` request: preprocess the query against
session memory, run the router, and dispatch.  Returns the outgoing query,
the updated memory, and the chosen branch (or the exception the router let
escape). -/
def chatRoute (llm : String → Except PyExn String) (query : String) (m : WebMemory) :
    String × WebMemory × Except PyExn Branch :=
  let (outQuery, m1) := chatPreprocess query m
  let m2 := chatMemIntent outQuery m1
  match (InquiryRouterAgent.handle llm outQuery).1 with
  | .error e => (outQuery, m2, .error e)
  | .ok agent => (outQuery, m2, .ok (chatDispatch agent))

/-- The outgoing query of a second, identical `chat` request issued right
after a first one: the first request's memory update (route store and intent
note) is applied, then the same query is preprocessed again. -/
def chatSecondQuery (query : String) (m : WebMemory) : String :=
  (chatPreprocess query
    (chatMemIntent (chatPreprocess query m).1 (chatPreprocess query m).2)).1

/-! ### Concrete Gemini analytics responses used in the claims -/

/-- The entries of a well-formed Gemini analytics response: all four required
keys, no `error` key, and a dict of extracted values. -/
def goodRespEntries : List (String × Json) :=
  [("sql", .str "SELECT carrier FROM flights LIMIT 50"),
   ("parameters", .arr []),
   ("query_type", .str "general_analytics"),
   ("extracted_values", .obj [])]

/-- A well-formed Gemini analytics response as a JSON value. -/
def goodResp : Json := .obj goodRespEntries

/-- A Gemini response with all four required keys whose `extracted_values`
entry is a number, so that `'origin' in extracted_values` raises `TypeError`
inside `_update_memory`. -/
def evNotContainer : Json :=
  .obj [("sql", .str "SELECT carrier FROM flights LIMIT 50"),
        ("parameters", .arr []),
        ("query_type", .str "general_analytics"),
        ("extracted_values", .num 2024)]

/-- A Gemini response that is valid JSON, has all four required keys, and
additionally has an `error` key. -/
def spuriousErrorResp : Json :=
  .obj [("sql", .str "SELECT carrier FROM flights LIMIT 50"),
        ("parameters", .arr []),
        ("query_type", .str "general_analytics"),
        ("extracted_values", .obj []),
        ("error", .str "note")]

/-! ## Helper lemmas -/

/-- String concatenation concatenates the character data. -/
theorem strDataAppend (a b : String) : (a ++ b).data = a.data ++ b.data := rfl

/-- A list is a prefix of itself followed by anything. -/
theorem subAt_self_append (n t : List Char) : subAt n (n ++ t) = true := by
  induction n with
  | nil => rfl
  | cons a as ih => simp [subAt, ih]

/-- A list occurs inside itself followed by anything. -/
theorem subList_self_append (n t : List Char) : subList n (n ++ t) = true := by
  cases n with
  | nil => cases t <;> rfl
  | cons a as =>
    simp only [List.cons_append, subList, Bool.or_eq_true]
    exact Or.inl (subAt_self_append (a :: as) t)

/-- Occurrence is preserved by prepending one character. -/
theorem subList_cons_of (n : List Char) (c : Char) (t : List Char)
    (h : subList n t = true) : subList n (c :: t) = true := by
  simp [subList, h]

/-- Occurrence is preserved by prepending any list. -/
theorem subList_append_left (pre n t : List Char) (h : subList n t = true) :
    subList n (pre ++ t) = true := by
  induction pre with
  | nil => simpa using h
  | cons c cs ih => simpa using subList_cons_of n c (cs ++ t) ih

/-- A member of the joined list occurs as a substring of the join. -/
theorem mem_pyJoin_subList (sep : String) (L : List String) (s : String)
    (h : s ∈ L) : subList s.data (pyJoin sep L).data = true := by
  induction L with
  | nil => cases h
  | cons x rest ih =>
    cases rest with
    | nil =>
      have hx : s = x := by simpa using h
      subst hx
      simpa using subList_self_append s.data []
    | cons y rest2 =>
      rcases List.mem_cons.mp h with h1 | h2
      · subst h1
        show subList s.data ((s ++ sep ++ pyJoin sep (y :: rest2)).data) = true
        rw [strDataAppend, strDataAppend, List.append_assoc]
        exact subList_self_append _ _
      · show subList s.data ((x ++ sep ++ pyJoin sep (y :: rest2)).data) = true
        rw [strDataAppend, strDataAppend, List.append_assoc]
        exact subList_append_left _ _ _ (subList_append_left _ _ _ (ih h2))

/-! ## Claims -/

/-- C1: whenever the carrier+number regex matches the query, the router
returns the `flight_status` tag without issuing the classification call, and
the classification call is issued exactly when the regex finds no match. -/
theorem claim_C1_router_regex_fast_path (llm : String → Except PyExn String) (query : String) :
    (hasFlightNumber query = true →
      InquiryRouterAgent.handle llm query = (Except.ok "flight_status", false)) ∧
    (hasFlightNumber query = false →
      (InquiryRouterAgent.handle llm query).2 = true) := by
  constructor
  · intro h
    simp [InquiryRouterAgent.handle, h]
  · intro h
    simp only [InquiryRouterAgent.handle, h, Bool.false_eq_true, if_false]
    cases llm (classifyPrompt query) <;> rfl

/-- Witness for C1 at the query `"Track AA123 please"`. -/
theorem claim_C1_witness :
    hasFlightNumber "Track AA123 please" = true ∧
    InquiryRouterAgent.handle (fun _ => Except.ok "flight_analytics") "Track AA123 please"
      = (Except.ok "flight_status", false) :=
  ⟨rfl, (claim_C1_router_regex_fast_path (fun _ => Except.ok "flight_analytics")
    "Track AA123 please").1 rfl⟩

/-- C4: when the query has no route match and memory remembers both codes,
the handler appends `" from <origin> to <dest>"` to the query; when the query
matches the route pattern, the matched codes are uppercased and stored into
the memory instead, leaving the query unchanged. -/
theorem claim_C4_memory_carry_forward (query : String) (m : WebMemory) :
    (∀ o d, searchRoute query = none → m.origin = some o → m.dest = some d →
      chatPreprocess query m = (query ++ " from " ++ o ++ " to " ++ d, m)) ∧
    (∀ g1 g2, searchRoute query = some (g1, g2) →
      chatPreprocess query m
        = (query, { m with origin := some (pyUpper g1), dest := some (pyUpper g2) })) := by
  constructor
  · intro o d hr ho hd
    simp [chatPreprocess, hr, ho, hd]
  · intro g1 g2 hr
    simp [chatPreprocess, hr]

/-- Witness for C4: a route-bearing query stores uppercased codes; a later
query without a route gets the remembered route appended. -/
theorem claim_C4_witness :
    chatPreprocess "delays from jfk to lax" {}
      = ("delays from jfk to lax",
         { origin := some "JFK", dest := some "LAX", lastIntent := none }) ∧
    chatPreprocess "how long is the flight" { origin := some "JFK", dest := some "LAX" }
      = ("how long is the flight from JFK to LAX",
         { origin := some "JFK", dest := some "LAX", lastIntent := none }) :=
  ⟨(claim_C4_memory_carry_forward "delays from jfk to lax" {}).2 "jfk" "lax" rfl,
   (claim_C4_memory_carry_forward "how long is the flight"
     { origin := some "JFK", dest := some "LAX" }).1 "JFK" "LAX" rfl rfl rfl⟩

/-- C5: when the regex does not match and the classification returns any
label, the router forwards the trimmed lower-cased label verbatim, and every
label other than `"flight_status"` is dispatched to the analytics branch with
no validation anywhere on the path. -/
theorem claim_C5_unvalidated_label_defaults_to_analytics (query label : String)
    (h : hasFlightNumber query = false) :
    (InquiryRouterAgent.handle (fun _ => Except.ok label) query).1
      = Except.ok (pyLower (pyStrip label)) ∧
    (pyLower (pyStrip label) ≠ "flight_status" →
      chatDispatch (pyLower (pyStrip label)) = Branch.analytics) := by
  constructor
  · simp [InquiryRouterAgent.handle, h]
  · intro hl
    simp [chatDispatch, hl]

/-- Witness for C5: the label `" BANANA "` (neither allowed value) routes to
the analytics branch. -/
theorem claim_C5_witness :
    (InquiryRouterAgent.handle (fun _ => Except.ok " BANANA ") "why are flights late").1
      = Except.ok "banana" ∧
    chatDispatch "banana" = Branch.analytics := by
  have h := claim_C5_unvalidated_label_defaults_to_analytics "why are flights late"
    " BANANA " rfl
  exact ⟨h.1, h.2 (by decide)⟩

/-- When validation produced the error dict, `handle` returns the
`VALIDATION_ERROR` response and never reaches the warehouse call. -/
theorem handle_validationErrorDict (llm : AnalyticsLlm) (bq : BqOutcome)
    (summ : Json → String → Except PyExn String) (emsg : String)
    (h : validateAndStructureSql llm = validationErrorDict emsg) :
    FlightAnalyticsAgent.handle llm bq summ =
      ⟨Except.ok { code := "VALIDATION_ERROR",
                   message := .str ("Failed to validate query: " ++ emsg),
                   details := some "Failed to validate query structure",
                   suggestion := some "Please rephrase your analytics question." },
       false, {}⟩ := by
  unfold FlightAnalyticsAgent.handle
  rw [h]
  rfl

/-- If some required key is absent from the parsed object, the sequential
`all(key in result ...)` check yields `False`. -/
theorem allKeysIn_missing (kvs : List (String × Json))
    (h : ∃ k ∈ requiredKeys, kvs.any (fun kv => kv.1 == k) = false) :
    allKeysIn requiredKeys (Json.obj kvs) = .ok false := by
  obtain ⟨k, hk, hmiss⟩ := h
  simp only [requiredKeys, List.mem_cons, List.not_mem_nil, or_false] at hk
  rcases hk with rfl | rfl | rfl | rfl
  · simp [requiredKeys, allKeysIn, pyIn, hmiss]
  · cases h1 : kvs.any (fun kv => kv.1 == "sql") <;>
      simp [requiredKeys, allKeysIn, pyIn, h1, hmiss]
  · cases h1 : kvs.any (fun kv => kv.1 == "sql") <;>
    cases h2 : kvs.any (fun kv => kv.1 == "parameters") <;>
      simp [requiredKeys, allKeysIn, pyIn, h1, h2, hmiss]
  · cases h1 : kvs.any (fun kv => kv.1 == "sql") <;>
    cases h2 : kvs.any (fun kv => kv.1 == "parameters") <;>
    cases h3 : kvs.any (fun kv => kv.1 == "query_type") <;>
      simp [requiredKeys, allKeysIn, pyIn, h1, h2, h3, hmiss]

/-- C2: whenever the Gemini response fails to parse as JSON or parses to an
object missing one of the four required keys, the analytics handler returns
code `VALIDATION_ERROR` and the BigQuery call is never attempted. -/
theorem claim_C2_validation_error_no_warehouse_call (llm : AnalyticsLlm)
    (bq : BqOutcome) (summ : Json → String → Except PyExn String)
    (h : llm = AnalyticsLlm.badJson ∨
      ∃ kvs, llm = AnalyticsLlm.json (Json.obj kvs) ∧
        ∃ k ∈ requiredKeys, kvs.any (fun kv => kv.1 == k) = false) :
    (FlightAnalyticsAgent.handle llm bq summ).bqCalled = false ∧
    ∃ r, (FlightAnalyticsAgent.handle llm bq summ).result = Except.ok r ∧
      r.code = "VALIDATION_ERROR" := by
  rcases h with rfl | ⟨kvs, rfl, hmiss⟩
  · rw [handle_validationErrorDict AnalyticsLlm.badJson bq summ jsonDecodeMsg rfl]
    exact ⟨rfl, _, rfl, rfl⟩
  · have hv : validateAndStructureSql (.json (.obj kvs))
        = validationErrorDict "Invalid response structure from Gemini" := by
      simp [validateAndStructureSql, allKeysIn_missing kvs hmiss]
    rw [handle_validationErrorDict _ bq summ _ hv]
    exact ⟨rfl, _, rfl, rfl⟩

/-- Witness for C2: an unparseable response, and a parsed object missing the
`sql` key, both yield `VALIDATION_ERROR` with no warehouse call. -/
theorem claim_C2_witness :
    (FlightAnalyticsAgent.handle AnalyticsLlm.badJson (BqOutcome.rows [])
      (fun _ _ => Except.ok "s")).bqCalled = false ∧
    ∃ r, (FlightAnalyticsAgent.handle AnalyticsLlm.badJson (BqOutcome.rows [])
      (fun _ _ => Except.ok "s")).result = Except.ok r ∧ r.code = "VALIDATION_ERROR" :=
  claim_C2_validation_error_no_warehouse_call AnalyticsLlm.badJson (BqOutcome.rows [])
    (fun _ _ => Except.ok "s") (Or.inl rfl)

/-- C9: a response that is valid JSON with all four required keys but also an
`error` key is rejected: `handle` returns `VALIDATION_ERROR` (with the
`error` value as its message) and never executes the SQL. -/
theorem claim_C9_error_key_shadows_valid_response :
    allKeysIn requiredKeys spuriousErrorResp = Except.ok true ∧
    (FlightAnalyticsAgent.handle (AnalyticsLlm.json spuriousErrorResp)
        (BqOutcome.rows [[("carrier", "AA")]]) (fun _ _ => Except.ok "sum")).result
      = Except.ok { code := "VALIDATION_ERROR", message := .str "note",
                    details := some "Failed to validate query structure",
                    suggestion := some "Please rephrase your analytics question." } ∧
    (FlightAnalyticsAgent.handle (AnalyticsLlm.json spuriousErrorResp)
        (BqOutcome.rows [[("carrier", "AA")]]) (fun _ _ => Except.ok "sum")).bqCalled
      = false :=
  ⟨rfl, rfl, rfl⟩

/-- Shared helper: the status handler's code always lies in the error
taxonomy, whatever the query and the oracle outcomes. -/
theorem statusHandle_code_mem (parseT : String → Option String)
    (summ : String → Except PyExn String) (ctx : UserContext)
    (fetch : FetchOutcome) (query : String) :
    (FlightStatusAgent.handle parseT summ ctx fetch query).code ∈
      (["SUCCESS", "INVALID_INPUT", "NOT_FOUND", "TIMEOUT", "NETWORK_ERROR",
        "SYSTEM_ERROR"] : List String) := by
  cases hE : extractFlightNumber query with
  | none => simp [FlightStatusAgent.handle, hE, errorResponse]
  | some fn =>
    cases fetch with
    | timeout => simp [FlightStatusAgent.handle, hE, errorResponse]
    | connError => simp [FlightStatusAgent.handle, hE, errorResponse]
    | raiseOther m => simp [FlightStatusAgent.handle, hE, errorResponse]
    | ok data =>
      cases data with
      | nil => simp [FlightStatusAgent.handle, hE, errorResponse]
      | cons r rest =>
        cases hS : summ (statusSummaryPrompt (formatFlightStatus parseT ctx fn r)) with
        | error e => simp [FlightStatusAgent.handle, hE, hS, errorResponse]
        | ok t => simp [FlightStatusAgent.handle, hE, hS]

/-- A key reported present by `any` can be subscripted successfully. -/
theorem pySubscript_ok_of_hasKey (kvs : List (String × Json)) (k : String)
    (h : kvs.any (fun kv => kv.1 == k) = true) :
    ∃ v, pySubscript (Json.obj kvs) k = Except.ok v := by
  induction kvs with
  | nil => simp at h
  | cons kv rest ih =>
    cases hk : (kv.1 == k) with
    | true =>
      refine ⟨kv.2, ?_⟩
      simp [pySubscript, List.find?, hk]
    | false =>
      simp only [List.any_cons, hk, Bool.false_or] at h
      obtain ⟨v, hv⟩ := ih h
      refine ⟨v, ?_⟩
      simp only [pySubscript, List.find?, hk] at hv ⊢
      exact hv

/-- A response object that passed the four-key check contains each required
key. -/
theorem allKeysIn_true_keys (kvs : List (String × Json))
    (h : allKeysIn requiredKeys (Json.obj kvs) = Except.ok true) :
    kvs.any (fun kv => kv.1 == "sql") = true ∧
    kvs.any (fun kv => kv.1 == "parameters") = true ∧
    kvs.any (fun kv => kv.1 == "query_type") = true ∧
    kvs.any (fun kv => kv.1 == "extracted_values") = true := by
  cases h1 : kvs.any (fun kv => kv.1 == "sql") <;>
  cases h2 : kvs.any (fun kv => kv.1 == "parameters") <;>
  cases h3 : kvs.any (fun kv => kv.1 == "query_type") <;>
  cases h4 : kvs.any (fun kv => kv.1 == "extracted_values") <;>
    simp_all [requiredKeys, allKeysIn, pyIn]

/-- `_update_memory` never raises when the extracted values form a dict. -/
theorem updateMemory_obj_ok (m : AMemory) (evs : List (String × Json)) :
    ∃ m2, updateMemory m (Json.obj evs) = Except.ok m2 := by
  have hf : ∀ k cur, ∃ r, memField (Json.obj evs) k cur = Except.ok r := by
    intro k cur
    cases hk : evs.any (fun kv => kv.1 == k) with
    | false => exact ⟨cur, by simp [memField, pyIn, hk]⟩
    | true =>
      obtain ⟨v, hv⟩ := pySubscript_ok_of_hasKey evs k hk
      exact ⟨some v, by simp [memField, pyIn, hk, hv]⟩
  obtain ⟨o, ho⟩ := hf "origin" m.lastOrigin
  obtain ⟨d, hd⟩ := hf "destination" m.lastDestination
  obtain ⟨y, hy⟩ := hf "year" m.lastYear
  obtain ⟨l, hl⟩ := hf "limit" m.lastLimit
  exact ⟨{ m with lastOrigin := o, lastDestination := d, lastYear := y, lastLimit := l },
    by simp [updateMemory, ho, hd, hy, hl, Bind.bind, Except.bind, Pure.pure, Except.pure]⟩

/-- C6 (counterexample to the claim as stated): a failure of the router's
LLM classification call does not yield a structured response — the exception
escapes `InquiryRouterAgent.handle`, whose body has no exception handler. -/
theorem claim_C6_counterexample :
    InquiryRouterAgent.handle (fun _ => Except.error (PyExn.exn "LLM unavailable")) "hello"
      = (Except.error (PyExn.exn "LLM unavailable"), true) := rfl

/-- C6 (amended): the status client always returns a structured result with a
taxonomy code, and for every response that passed validation (four keys, no
`error` key, a dict of extracted values) the analytics client catches
exceptions raised during warehouse execution and during summarization,
returning a structured `SYSTEM_ERROR`; but an exception in the router's LLM
classification call propagates to the web layer, as does a `TypeError`
raised by the analytics memory-update step, which runs outside the `try`
block. -/
theorem claim_C6_exception_policy :
    (∀ parseT summ ctx fetch query,
      (FlightStatusAgent.handle parseT summ ctx fetch query).code ∈
        (["SUCCESS", "INVALID_INPUT", "NOT_FOUND", "TIMEOUT", "NETWORK_ERROR",
          "SYSTEM_ERROR"] : List String)) ∧
    (∀ kvs evs emsg summ,
      allKeysIn requiredKeys (Json.obj kvs) = Except.ok true →
      kvs.any (fun kv => kv.1 == "error") = false →
      pySubscript (Json.obj kvs) "extracted_values" = Except.ok (Json.obj evs) →
      (FlightAnalyticsAgent.handle (AnalyticsLlm.json (Json.obj kvs))
          (BqOutcome.raise emsg) summ).result = Except.ok (analyticsSystemError emsg) ∧
      (FlightAnalyticsAgent.handle (AnalyticsLlm.json (Json.obj kvs))
          (BqOutcome.raise emsg) summ).bqCalled = true) ∧
    (∀ kvs evs r0 rest qt e summ,
      allKeysIn requiredKeys (Json.obj kvs) = Except.ok true →
      kvs.any (fun kv => kv.1 == "error") = false →
      pySubscript (Json.obj kvs) "extracted_values" = Except.ok (Json.obj evs) →
      pySubscript (Json.obj kvs) "query_type" = Except.ok qt →
      summ qt (formatResults (r0 :: rest)) = Except.error e →
      (FlightAnalyticsAgent.handle (AnalyticsLlm.json (Json.obj kvs))
          (BqOutcome.rows (r0 :: rest)) summ).result
        = Except.ok (analyticsSystemError (pyExnMsg e)) ∧
      (FlightAnalyticsAgent.handle (AnalyticsLlm.json (Json.obj kvs))
          (BqOutcome.rows (r0 :: rest)) summ).bqCalled = true) ∧
    (∀ query e, hasFlightNumber query = false →
      InquiryRouterAgent.handle (fun _ => Except.error e) query = (Except.error e, true)) ∧
    (∀ bq summ, FlightAnalyticsAgent.handle (AnalyticsLlm.json evNotContainer) bq summ
      = ⟨Except.error PyExn.typeError, false, {}⟩) := by
  refine ⟨statusHandle_code_mem, ?_, ?_, ?_, fun bq summ => rfl⟩
  · intro kvs evs emsg summ hall herr hev
    have hvr : validateAndStructureSql (.json (.obj kvs)) = Json.obj kvs := by
      simp [validateAndStructureSql, hall]
    obtain ⟨hsql, hpar, hqt, hevk⟩ := allKeysIn_true_keys kvs hall
    obtain ⟨vsql, hvsql⟩ := pySubscript_ok_of_hasKey kvs "sql" hsql
    obtain ⟨vpar, hvpar⟩ := pySubscript_ok_of_hasKey kvs "parameters" hpar
    obtain ⟨mem, hmem⟩ := updateMemory_obj_ok {} evs
    constructor <;>
      simp [FlightAnalyticsAgent.handle, hvr, pyIn, herr, hev, hmem, hvsql, hvpar]
  · intro kvs evs r0 rest qt e summ hall herr hev hqtv hsumm
    have hvr : validateAndStructureSql (.json (.obj kvs)) = Json.obj kvs := by
      simp [validateAndStructureSql, hall]
    obtain ⟨hsql, hpar, hqt, hevk⟩ := allKeysIn_true_keys kvs hall
    obtain ⟨vsql, hvsql⟩ := pySubscript_ok_of_hasKey kvs "sql" hsql
    obtain ⟨vpar, hvpar⟩ := pySubscript_ok_of_hasKey kvs "parameters" hpar
    obtain ⟨mem, hmem⟩ := updateMemory_obj_ok {} evs
    constructor <;>
      simp [FlightAnalyticsAgent.handle, hvr, pyIn, herr, hev, hmem, hvsql, hvpar,
        hqtv, hsumm]
  · intro query e h
    simp only [InquiryRouterAgent.handle, h, Bool.false_eq_true, if_false]

/-- Witness for C6 (amended): concrete instances of the structured status
result, of the analytics warehouse-failure and summarizer-failure catches,
and of the router exception escape. -/
theorem claim_C6_witness :
    (FlightStatusAgent.handle (fun _ => none) (fun _ => Except.ok "s") {}
        FetchOutcome.timeout "AA1 status").code ∈
      (["SUCCESS", "INVALID_INPUT", "NOT_FOUND", "TIMEOUT", "NETWORK_ERROR",
        "SYSTEM_ERROR"] : List String) ∧
    (FlightAnalyticsAgent.handle (AnalyticsLlm.json goodResp) (BqOutcome.raise "db down")
        (fun _ _ => Except.ok "s")).result = Except.ok (analyticsSystemError "db down") ∧
    (FlightAnalyticsAgent.handle (AnalyticsLlm.json goodResp)
        (BqOutcome.rows [[("carrier", "AA")]])
        (fun _ _ => Except.error (PyExn.exn "boom"))).result
      = Except.ok (analyticsSystemError "boom") ∧
    InquiryRouterAgent.handle (fun _ => Except.error PyExn.typeError) "hi"
      = (Except.error PyExn.typeError, true) :=
  ⟨claim_C6_exception_policy.1 (fun _ => none) (fun _ => Except.ok "s") {}
      FetchOutcome.timeout "AA1 status",
   (claim_C6_exception_policy.2.1 goodRespEntries [] "db down"
      (fun _ _ => Except.ok "s") rfl rfl rfl).1,
   (claim_C6_exception_policy.2.2.1 goodRespEntries [] [("carrier", "AA")] []
      (Json.str "general_analytics") (PyExn.exn "boom")
      (fun _ _ => Except.error (PyExn.exn "boom")) rfl rfl rfl rfl rfl).1,
   claim_C6_exception_policy.2.2.2.1 "hi" PyExn.typeError rfl⟩

/-- C3: the status client's error-code mapping — no extractable flight number
gives `INVALID_INPUT`, an empty or absent data list gives `NOT_FOUND`, a
request timeout gives `TIMEOUT`, a connection error gives `NETWORK_ERROR`,
and any other exception (including one from the summarizer call) gives
`SYSTEM_ERROR`; in every case a structured result is returned. -/
theorem claim_C3_status_error_taxonomy (parseT : String → Option String)
    (summ : String → Except PyExn String) (ctx : UserContext)
    (fetch : FetchOutcome) (query : String) :
    (extractFlightNumber query = none →
      (FlightStatusAgent.handle parseT summ ctx fetch query).code = "INVALID_INPUT") ∧
    (∀ fn, extractFlightNumber query = some fn → fetch = FetchOutcome.ok [] →
      (FlightStatusAgent.handle parseT summ ctx fetch query).code = "NOT_FOUND") ∧
    (∀ fn, extractFlightNumber query = some fn → fetch = FetchOutcome.timeout →
      (FlightStatusAgent.handle parseT summ ctx fetch query).code = "TIMEOUT") ∧
    (∀ fn, extractFlightNumber query = some fn → fetch = FetchOutcome.connError →
      (FlightStatusAgent.handle parseT summ ctx fetch query).code = "NETWORK_ERROR") ∧
    (∀ fn msg, extractFlightNumber query = some fn → fetch = FetchOutcome.raiseOther msg →
      (FlightStatusAgent.handle parseT summ ctx fetch query).code = "SYSTEM_ERROR") ∧
    (∀ fn r rest e, extractFlightNumber query = some fn →
      fetch = FetchOutcome.ok (r :: rest) →
      summ (statusSummaryPrompt (formatFlightStatus parseT ctx fn r)) = Except.error e →
      (FlightStatusAgent.handle parseT summ ctx fetch query).code = "SYSTEM_ERROR") ∧
    (FlightStatusAgent.handle parseT summ ctx fetch query).code ∈
      (["SUCCESS", "INVALID_INPUT", "NOT_FOUND", "TIMEOUT", "NETWORK_ERROR",
        "SYSTEM_ERROR"] : List String) := by
  refine ⟨?_, ?_, ?_, ?_, ?_, ?_, ?_⟩
  · intro hE
    simp [FlightStatusAgent.handle, hE, errorResponse]
  · intro fn hE hF
    subst hF
    simp [FlightStatusAgent.handle, hE, errorResponse]
  · intro fn hE hF
    subst hF
    simp [FlightStatusAgent.handle, hE, errorResponse]
  · intro fn hE hF
    subst hF
    simp [FlightStatusAgent.handle, hE, errorResponse]
  · intro fn msg hE hF
    subst hF
    simp [FlightStatusAgent.handle, hE, errorResponse]
  · intro fn r rest e hE hF hS
    subst hF
    simp [FlightStatusAgent.handle, hE, hS, errorResponse]
  · exact statusHandle_code_mem parseT summ ctx fetch query

/-- Witness for C3: a query with no flight number yields `INVALID_INPUT`, and
a query whose fetch returns an empty list yields `NOT_FOUND`. -/
theorem claim_C3_witness :
    (FlightStatusAgent.handle (fun _ => none) (fun _ => Except.ok "s") {}
        FetchOutcome.timeout "just words").code = "INVALID_INPUT" ∧
    (FlightStatusAgent.handle (fun _ => none) (fun _ => Except.ok "s") {}
        (FetchOutcome.ok []) "Where is AA123?").code = "NOT_FOUND" :=
  ⟨(claim_C3_status_error_taxonomy (fun _ => none) (fun _ => Except.ok "s") {}
      FetchOutcome.timeout "just words").1 rfl,
   (claim_C3_status_error_taxonomy (fun _ => none) (fun _ => Except.ok "s") {}
      (FetchOutcome.ok []) "Where is AA123?").2.1 "AA123" rfl rfl⟩

/-- C7: for the query `"What's the status of AA123?"` the router selects the
status route without an LLM call, and for any record whose `flight_status` is
`"active"` the formatted report contains the line `Status: Active`, both as a
member of the report's line list and as a substring of the joined report. -/
theorem claim_C7_scenario_aa123_active (parseT : String → Option String)
    (ctx : UserContext) (fn : String) (f : FlightRecord)
    (llm : String → Except PyExn String)
    (h : f.flight_status = some "active") :
    InquiryRouterAgent.handle llm "What\x27s the status of AA123?"
      = (Except.ok "flight_status", false) ∧
    "Status: Active" ∈ formatFlightLines parseT ctx fn f ∧
    strContains (formatFlightStatus parseT ctx fn f) "Status: Active" = true := by
  have hst : ("Status: " ++ pyCapitalize (f.flight_status.getD "Unknown"))
      = "Status: Active" := by rw [h]; rfl
  have hmem : "Status: Active" ∈ formatFlightLines parseT ctx fn f := by
    simp only [formatFlightLines, hst]
    split <;> simp
  refine ⟨?_, hmem, ?_⟩
  · simp [InquiryRouterAgent.handle,
      show hasFlightNumber "What\x27s the status of AA123?" = true from rfl]
  · unfold strContains formatFlightStatus
    exact mem_pyJoin_subList "\n" _ _ hmem

/-- Witness for C7 at a concrete active-flight record. -/
theorem claim_C7_witness :
    "Status: Active" ∈ formatFlightLines (fun _ => none) {} "AA123"
        { flight_status := some "active" } ∧
    strContains (formatFlightStatus (fun _ => none) {} "AA123"
        { flight_status := some "active" }) "Status: Active" = true :=
  ⟨(claim_C7_scenario_aa123_active (fun _ => none) {} "AA123"
      { flight_status := some "active" } (fun _ => Except.ok "x") rfl).2.1,
   (claim_C7_scenario_aa123_active (fun _ => none) {} "AA123"
      { flight_status := some "active" } (fun _ => Except.ok "x") rfl).2.2⟩

/-- Auxiliary: a string built from the two personalization fragments never
starts with `Departure Delay:`. -/
theorem pers_fragments_not_delay (x y : String)
    (hx : x = "" ∨ x = "\n[Personalized] This is your preferred airline!")
    (hy : y = "" ∨ y = "\n[Personalized] This route includes your preferred airport!") :
    strStartsWith (x ++ y) "Departure Delay:" = false := by
  rcases hx with rfl | rfl <;> rcases hy with rfl | rfl <;> rfl

/-- The personalization entry never starts with `Departure Delay:` (it is
empty or starts with a newline). -/
theorem personalization_not_delay (ctx : UserContext) (airline depCity arrCity : String) :
    strStartsWith (personalization ctx airline depCity arrCity) "Departure Delay:"
      = false := by
  unfold personalization
  apply pers_fragments_not_delay
  · cases ctx.preferredAirline with
    | none => exact Or.inl rfl
    | some ua =>
      by_cases hc : (ua != "" && strContains (pyLower airline) (pyLower ua)) = true
      · exact Or.inr (if_pos hc)
      · exact Or.inl (if_neg hc)
  · cases ctx.preferredAirport with
    | none => exact Or.inl rfl
    | some up =>
      by_cases hc : (up != "" && (strContains (pyLower depCity) (pyLower up)
          || strContains (pyLower arrCity) (pyLower up))) = true
      · exact Or.inr (if_pos hc)
      · exact Or.inl (if_neg hc)

/-- C10: a delay of `0`, absent, or `None` yields the `On time` line and no
line starting with `Departure Delay:`; the `Departure Delay: <n> min` line
appears exactly when the recorded delay is a nonzero value. -/
theorem claim_C10_zero_delay_indistinguishable (parseT : String → Option String)
    (ctx : UserContext) (fn : String) (f : FlightRecord) :
    (f.departure.delay = none ∨ f.departure.delay = some 0 →
      "On time" ∈ formatFlightLines parseT ctx fn f ∧
      ∀ l ∈ formatFlightLines parseT ctx fn f,
        strStartsWith l "Departure Delay:" = false) ∧
    (∀ n : Int, n ≠ 0 → f.departure.delay = some n →
      ("Departure Delay: " ++ toString n ++ " min") ∈ formatFlightLines parseT ctx fn f) := by
  constructor
  · intro hfalsy
    have hd : delayLine f.departure.delay = "On time" := by
      rcases hfalsy with h | h <;> simp [delayLine, h]
    constructor
    · simp only [formatFlightLines, hd]
      split <;> simp
    · intro l hl
      simp only [formatFlightLines, hd] at hl
      split at hl
      · simp only [List.mem_cons, List.not_mem_nil, or_false] at hl
        rcases hl with rfl | rfl | rfl | rfl | rfl | rfl | rfl <;> rfl
      · rw [List.mem_append] at hl
        rcases hl with hl | hl
        · simp only [List.mem_cons, List.not_mem_nil, or_false] at hl
          rcases hl with rfl | rfl | rfl | rfl | rfl | rfl | rfl <;> rfl
        · rw [List.mem_singleton] at hl
          subst hl
          exact personalization_not_delay ctx _ _ _
  · intro n hn hdel
    have hd : delayLine f.departure.delay
        = "Departure Delay: " ++ toString n ++ " min" := by
      simp [delayLine, hdel, hn]
    simp only [formatFlightLines, hd]
    split <;> simp

/-- Witness for C10 at a record with a recorded zero-minute delay. -/
theorem claim_C10_witness :
    "On time" ∈ formatFlightLines (fun _ => none) {} "AA123"
      { departure := { delay := some 0 } } :=
  ((claim_C10_zero_delay_indistinguishable (fun _ => none) {} "AA123"
    { departure := { delay := some 0 } }).1 (Or.inr rfl)).1

/-- `chatMemIntent` only touches the intent note, never the stored route. -/
theorem chatMemIntent_route_fields (q : String) (m : WebMemory) :
    (chatMemIntent q m).origin = m.origin ∧ (chatMemIntent q m).dest = m.dest := by
  unfold chatMemIntent
  split <;> simp

/-- The outgoing query depends on the memory only through its route fields. -/
theorem chatPreprocess_fst_congr (query : String) (m m2 : WebMemory)
    (ho : m2.origin = m.origin) (hd : m2.dest = m.dest) :
    (chatPreprocess query m2).1 = (chatPreprocess query m).1 := by
  unfold chatPreprocess
  cases hr : searchRoute query with
  | some g => obtain ⟨g1, g2⟩ := g; simp [hr]
  | none =>
    simp only [hr, ho, hd]
    cases m.origin <;> cases m.dest <;> rfl

/-- When the query has no route pattern, preprocessing leaves memory unchanged. -/
theorem chatPreprocess_snd_of_none (query : String) (m : WebMemory)
    (hr : searchRoute query = none) : (chatPreprocess query m).2 = m := by
  obtain ⟨mo, md, mi⟩ := m
  simp only [chatPreprocess, hr]
  cases mo <;> cases md <;> rfl

/-- C8: repeating the identical query against the memory left by a first run
produces the same outgoing query, hence the same routing decision, and a
sustained empty fetch yields `NOT_FOUND` on both runs: routing and error-code
mapping are deterministic in the query and the external responses. -/
theorem claim_C8_deterministic_idempotent (query : String) (m : WebMemory) :
    chatSecondQuery query m = (chatPreprocess query m).1 ∧
    (∀ llm, InquiryRouterAgent.handle llm (chatSecondQuery query m)
        = InquiryRouterAgent.handle llm (chatPreprocess query m).1) ∧
    (∀ parseT summ ctx fn,
      extractFlightNumber (chatPreprocess query m).1 = some fn →
      (FlightStatusAgent.handle parseT summ ctx (FetchOutcome.ok [])
          (chatPreprocess query m).1).code = "NOT_FOUND" ∧
      (FlightStatusAgent.handle parseT summ ctx (FetchOutcome.ok [])
          (chatSecondQuery query m)).code = "NOT_FOUND") := by
  have h1 : chatSecondQuery query m = (chatPreprocess query m).1 := by
    unfold chatSecondQuery
    cases hr : searchRoute query with
    | some g =>
      obtain ⟨g1, g2⟩ := g
      simp [chatPreprocess, hr]
    | none =>
      rw [chatPreprocess_snd_of_none query m hr]
      exact chatPreprocess_fst_congr query m _
        (chatMemIntent_route_fields _ m).1 (chatMemIntent_route_fields _ m).2
  refine ⟨h1, fun llm => by rw [h1], ?_⟩
  intro parseT summ ctx fn hfn
  constructor
  · simp [FlightStatusAgent.handle, hfn, errorResponse]
  · rw [h1]
    simp [FlightStatusAgent.handle, hfn, errorResponse]

/-- Witness for C8: a concrete status query with a route, repeated against an
empty fetch, maps to `NOT_FOUND`. -/
theorem claim_C8_witness :
    (FlightStatusAgent.handle (fun _ => none) (fun _ => Except.ok "s") {}
        (FetchOutcome.ok [])
        (chatPreprocess "Status of AA123 from JFK to LAX" {}).1).code = "NOT_FOUND" :=
  ((claim_C8_deterministic_idempotent "Status of AA123 from JFK to LAX" {}).2.2
    (fun _ => none) (fun _ => Except.ok "s") {} "AA123" rfl).1

end TravelAssistant
